import Mathlib

/-!
Shallow embedding of the correlation-ID / structured-request-logging core of
the `fastapi_lab` repository.

The embedded source files are:
* `src/middleware/correlation.py`   (`CorrelationMiddleware.dispatch`)
* `src/middleware/request_logging.py` (`RequestLoggingMiddleware.dispatch`)
* `src/core/logging.py`             (context vars, `serialize_record`,
                                     `bind_context_vars`, `clear_context_vars`)
* `src/core/exception_handlers.py`  (`general_exception_handler`)
* `main.py`                         (middleware stack and handler registration)

Modelling conventions:
* HTTP headers are association lists `List (String × String)`; `lookupKey`
  returns the first binding, mirroring `request.headers.get(name)`.
* Python truthiness on an optional string (`if not x`) is `pyTruthy`:
  `None` and `""` are falsy.
* `uuid.uuid4()` is modelled by `uuid4String r` where `r` supplies the 128
  random bits; the version/variant forcing and the hyphenated lowercase-hex
  rendering follow `uuid.UUID.__str__`.
* The monotonic clock `time.perf_counter()` is modelled by natural-number
  nanosecond readings; the float seconds value is the exact rational
  `ticks / 10^9`, and `str(process_time)` is modelled by the exact decimal
  rendering `secondsString` (integer part, a dot, nine fractional digits).
* Python's `round(x, 2)` (round half to even) is `pyRound2`.
* Exceptions are values `PyException` (type name and message); a fallible
  computation returns `Except PyException α`.  `try/finally` becomes explicit
  sequencing on both branches of a `match`.
-/

namespace FastapiLab

/-- First-match lookup in an association list keyed by strings; models
`request.headers.get(name)` and Python `dict` lookup. -/
def lookupKey {α : Type} (l : List (String × α)) (k : String) : Option α :=
  (l.find? (fun p => p.1 == k)).map (fun p => p.2)

/-- Python truthiness of an optional string: `None` and `""` are falsy,
every non-empty string is truthy. -/
def pyTruthy : Option String → Bool
  | none => false
  | some s => !s.isEmpty

/-- Starlette `MutableHeaders.__setitem__`: drop any existing entries with the
given name and append the new binding. -/
def setHeader (hs : List (String × String)) (name val : String) :
    List (String × String) :=
  hs.filter (fun p => p.1 != name) ++ [(name, val)]

/-- The two `ContextVar` cells declared in `src/core/logging.py`
(`correlation_id_context`, `request_id_context`), both with default `None`. -/
structure ContextStore where
  correlation_id : Option String
  request_id : Option String
deriving DecidableEq, Repr

/-- The initial ambient store: both context variables unset. -/
def ContextStore.unset : ContextStore := ⟨none, none⟩

/-- `bind_context_vars` from `src/core/logging.py`: each cell is set only when
the supplied value is truthy (`if correlation_id:` / `if request_id:`). -/
def bind_context_vars (s : ContextStore)
    (correlation_id request_id : Option String) : ContextStore :=
  let s1 := if pyTruthy correlation_id then
    { s with correlation_id := correlation_id } else s
  if pyTruthy request_id then { s1 with request_id := request_id } else s1

/-- `clear_context_vars` from `src/core/logging.py`: both cells set to `None`. -/
def clear_context_vars (_s : ContextStore) : ContextStore := ⟨none, none⟩

/-! ### uuid.uuid4 -/

/-- Lowercase hexadecimal digit character for a value below 16. -/
def hexChar (n : Nat) : Char :=
  if n < 10 then Char.ofNat (48 + n) else Char.ofNat (87 + n)

/-- Fixed-width big-endian hexadecimal rendering (`'%032x' % int` uses width
32); the width argument is recursed on, so the output always has exactly the
requested number of characters. -/
def hexPad : Nat → Nat → List Char
  | _, 0 => []
  | n, w + 1 => hexPad (n / 16) w ++ [hexChar (n % 16)]

/-- The 128-bit integer of `uuid.uuid4()` built from 128 random bits `r`:
the variant bits (of the clock-seq-hi octet) are forced to `10` and the
version nibble to `4`, as in `uuid.UUID.__init__`. -/
def uuid4Int (r : Nat) : Nat :=
  let v0 := r % 2 ^ 128
  let v1 := (v0 &&& (2 ^ 128 - 1 - (0xc000 <<< 48))) ||| (0x8000 <<< 48)
  (v1 &&& (2 ^ 128 - 1 - (0xf000 <<< 64))) ||| (0x4 <<< 76)

/-- `str(uuid.uuid4())`: the 32 hex digits of the 128-bit value, hyphenated
8-4-4-4-12. -/
def uuid4String (r : Nat) : String :=
  let hx := hexPad (uuid4Int r) 32
  String.mk (hx.take 8) ++ "-" ++ String.mk ((hx.drop 8).take 4) ++ "-" ++
    String.mk ((hx.drop 12).take 4) ++ "-" ++
    String.mk ((hx.drop 16).take 4) ++ "-" ++ String.mk (hx.drop 20)

/-- Lowercase hexadecimal digit character test. -/
def isHexDigitChar (c : Char) : Bool :=
  (decide (48 ≤ c.toNat) && decide (c.toNat ≤ 57)) ||
    (decide (97 ≤ c.toNat) && decide (c.toNat ≤ 102))

/-- The standard textual form of a UUID: five hyphen-separated groups of
lowercase hex digits with lengths 8, 4, 4, 4 and 12. -/
def IsUuidStringForm (s : String) : Prop :=
  ∃ a b c d e : List Char,
    a.length = 8 ∧ b.length = 4 ∧ c.length = 4 ∧ d.length = 4 ∧
    e.length = 12 ∧
    (a ++ b ++ c ++ d ++ e).all isHexDigitChar = true ∧
    s = String.mk a ++ "-" ++ String.mk b ++ "-" ++ String.mk c ++ "-" ++
      String.mk d ++ "-" ++ String.mk e

/-! ### CorrelationMiddleware.dispatch: resolution of the two IDs -/

/-- Resolution of `correlation_id` in `CorrelationMiddleware.dispatch`:

    correlation_id = request.headers.get("X-Correlation-ID")
    if not correlation_id:
        correlation_id = request.headers.get("X-Request-ID")
    if not correlation_id:
        correlation_id = str(uuid.uuid4())

`fresh` stands for the generated `str(uuid.uuid4())`. -/
def resolveCorrelationId (hs : List (String × String)) (fresh : String) :
    String :=
  let c0 := lookupKey hs "X-Correlation-ID"
  let c1 := if pyTruthy c0 then c0 else lookupKey hs "X-Request-ID"
  if pyTruthy c1 then c1.getD fresh else fresh

/-- Resolution of `request_id` in `CorrelationMiddleware.dispatch`:

    request_id = request.headers.get("X-Request-ID", str(uuid.uuid4()))

a plain default lookup, with no truthiness filtering. -/
def resolveRequestId (hs : List (String × String)) (fresh : String) : String :=
  (lookupKey hs "X-Request-ID").getD fresh

/-! ### Basic lemmas about header lookup -/

theorem lookupKey_setHeader_same {hs : List (String × String)} {n v : String} :
    lookupKey (setHeader hs n v) n = some v := by
  unfold lookupKey setHeader
  rw [List.find?_append]
  have h1 : (hs.filter (fun p => p.1 != n)).find? (fun p => p.1 == n) = none := by
    rw [List.find?_eq_none]
    intro x hx
    have hkeep := List.of_mem_filter hx
    simp only [bne_iff_ne, ne_eq] at hkeep
    simp [hkeep]
  rw [h1]
  simp [List.find?]

theorem find?_filter_ne_key {t : List (String × String)} {n m : String}
    (hnm : m ≠ n) :
    (t.filter (fun p => p.1 != n)).find? (fun p => p.1 == m) =
      t.find? (fun p => p.1 == m) := by
  induction t with
  | nil => rfl
  | cons p t ih =>
      by_cases hq : p.1 = m
      · have hkeep : (p.1 != n) = true := by
          simp [bne_iff_ne, hq]
          exact fun h => hnm (hq ▸ h) |>.elim
        have hfind : (p.1 == m) = true := by simp [hq]
        simp [List.filter_cons, hkeep, List.find?_cons, hfind]
      · have hfind : (p.1 == m) = false := by simp [hq]
        by_cases hp : p.1 = n
        · have hdrop : (p.1 != n) = false := by simp [bne_iff_ne, hp]
          simp [List.filter_cons, hdrop, List.find?_cons, hfind, ih]
        · have hkeep : (p.1 != n) = true := by simp [bne_iff_ne, hp]
          simp [List.filter_cons, hkeep, List.find?_cons, hfind, ih]

theorem lookupKey_setHeader_other {hs : List (String × String)}
    {n v m : String} (hnm : m ≠ n) :
    lookupKey (setHeader hs n v) m = lookupKey hs m := by
  unfold lookupKey setHeader
  rw [List.find?_append]
  have h2 : List.find? (fun p => p.1 == m) [(n, v)] = none := by
    have hne : ¬n = m := fun h => hnm h.symm
    have : (n == m) = false := by simp [hne]
    simp [List.find?, this]
  rw [h2, Option.or_none, find?_filter_ne_key hnm]

/-! ### Shape of the generated UUID strings -/

theorem hexPad_length (w : Nat) : ∀ n : Nat, (hexPad n w).length = w := by
  induction w with
  | zero => intro n; rfl
  | succ w ih =>
      intro n
      simp [hexPad, ih (n / 16)]

theorem hexChar_isHex {n : Nat} (hn : n < 16) :
    isHexDigitChar (hexChar n) = true := by
  interval_cases n <;> decide

theorem mem_hexPad_isHex {w : Nat} :
    ∀ {n : Nat} {c : Char}, c ∈ hexPad n w → isHexDigitChar c = true := by
  induction w with
  | zero => intro n c hc; simp [hexPad] at hc
  | succ w ih =>
      intro n c hc
      simp only [hexPad, List.mem_append, List.mem_singleton] at hc
      rcases hc with hc | hc
      · exact ih hc
      · subst hc
        exact hexChar_isHex (Nat.mod_lt _ (by norm_num))

theorem uuid4String_form (r : Nat) : IsUuidStringForm (uuid4String r) := by
  set hx := hexPad (uuid4Int r) 32 with hhx
  have hlen : hx.length = 32 := hexPad_length 32 (uuid4Int r)
  refine ⟨hx.take 8, (hx.drop 8).take 4, (hx.drop 12).take 4,
    (hx.drop 16).take 4, hx.drop 20, ?_, ?_, ?_, ?_, ?_, ?_, rfl⟩
  · simp [List.length_take, hlen]
  · simp [List.length_take, List.length_drop, hlen]
  · simp [List.length_take, List.length_drop, hlen]
  · simp [List.length_take, List.length_drop, hlen]
  · simp [List.length_drop, hlen]
  · rw [List.all_eq_true]
    intro c hc
    simp only [List.mem_append] at hc
    have hmem : c ∈ hx := by
      rcases hc with ((((h | h) | h) | h) | h)
      · exact List.take_subset _ _ h
      · exact List.drop_subset _ _ (List.take_subset _ _ h)
      · exact List.drop_subset _ _ (List.take_subset _ _ h)
      · exact List.drop_subset _ _ (List.take_subset _ _ h)
      · exact List.drop_subset _ _ h
    exact mem_hexPad_isHex hmem

/-! ### Decimal rendering and parsing of the elapsed-seconds value

`time.perf_counter()` is modelled as a natural-number reading of a nanosecond
monotonic clock; the float `process_time = end - start` (seconds) is then the
exact rational `ticks / 10^9`, and `str(process_time)` is modelled as the
exact decimal rendering: the integer part, a dot, and nine fractional digits.
`parseNonnegFloat` models `float(s)` restricted to plain non-negative decimal
literals. -/

/-- Decimal digit character for a value below 10. -/
def digitChar (d : Nat) : Char := Char.ofNat (48 + d)

/-- Decimal digit character test. -/
def isDigitChar (c : Char) : Bool :=
  decide (48 ≤ c.toNat) && decide (c.toNat ≤ 57)

/-- Decimal rendering of a natural number (`str(m)` for a non-negative int):
most significant digit first, a single `'0'` for zero. -/
def natRepr (m : Nat) : List Char :=
  if m = 0 then ['0'] else ((Nat.digits 10 m).map digitChar).reverse

/-- Value of a most-significant-first string of decimal digit characters. -/
def digitsVal (cs : List Char) : Nat :=
  cs.foldl (fun acc c => acc * 10 + (c.toNat - 48)) 0

/-- Left-pad a digit string with `'0'` up to the given width. -/
def padZeros (w : Nat) (cs : List Char) : List Char :=
  List.replicate (w - cs.length) '0' ++ cs

/-- Exact decimal rendering of `ns / 10^9` seconds, modelling
`str(process_time)` for a nanosecond tick difference `ns`. -/
def secondsString (ns : Nat) : String :=
  String.mk (natRepr (ns / 10 ^ 9) ++ '.' :: padZeros 9 (natRepr (ns % 10 ^ 9)))

/-- Split a character list at its first `'.'`, if any. -/
def splitAtDot : List Char → Option (List Char × List Char)
  | [] => none
  | c :: cs =>
      if c = '.' then some ([], cs)
      else (splitAtDot cs).map (fun p => (c :: p.1, p.2))

/-- `float(s)` restricted to plain decimal literals: an optional integer part,
an optional dot, an optional fractional part, at least one digit overall.
Returns the exact rational value. -/
def parseNonnegFloat (s : String) : Option ℚ :=
  match splitAtDot s.data with
  | some (ip, fp) =>
      if (!(ip.isEmpty && fp.isEmpty)) && ip.all isDigitChar &&
          fp.all isDigitChar then
        some ((digitsVal ip : ℚ) + (digitsVal fp : ℚ) / (10 : ℚ) ^ fp.length)
      else none
  | none =>
      if (!s.data.isEmpty) && s.data.all isDigitChar then
        some ((digitsVal s.data : ℚ))
      else none

/-- Python's bankers' rounding to an integer (`round(x)`): nearest integer,
ties to even. -/
def roundHalfEven (q : ℚ) : ℤ :=
  if q - ⌊q⌋ < 1 / 2 then ⌊q⌋
  else if 1 / 2 < q - ⌊q⌋ then ⌊q⌋ + 1
  else if ⌊q⌋ % 2 = 0 then ⌊q⌋ else ⌊q⌋ + 1

/-- Python's `round(x, 2)` on the exact rational value. -/
def pyRound2 (q : ℚ) : ℚ := (roundHalfEven (q * 100) : ℚ) / 100

theorem pyRound2_nonneg {q : ℚ} (hq : 0 ≤ q) : 0 ≤ pyRound2 q := by
  have hf : (0 : ℤ) ≤ ⌊q * 100⌋ := Int.floor_nonneg.mpr (by positivity)
  have hbr : (0 : ℤ) ≤ roundHalfEven (q * 100) := by
    unfold roundHalfEven
    split_ifs <;> omega
  unfold pyRound2
  have : (0 : ℚ) ≤ (roundHalfEven (q * 100) : ℚ) := by exact_mod_cast hbr
  positivity

theorem digitChar_toNat {d : Nat} (hd : d < 10) :
    (digitChar d).toNat = 48 + d := by
  interval_cases d <;> decide

theorem isDigitChar_digitChar {d : Nat} (hd : d < 10) :
    isDigitChar (digitChar d) = true := by
  interval_cases d <;> decide

theorem digitsVal_append_singleton (cs : List Char) (c : Char) :
    digitsVal (cs ++ [c]) = digitsVal cs * 10 + (c.toNat - 48) := by
  unfold digitsVal
  rw [List.foldl_append]
  rfl

theorem digitsVal_rev_map {L : List Nat} (hL : ∀ d ∈ L, d < 10) :
    digitsVal ((L.map digitChar).reverse) = Nat.ofDigits 10 L := by
  induction L with
  | nil => rfl
  | cons d L ih =>
      have hd : d < 10 := hL d (List.mem_cons_self d L)
      have hL' : ∀ x ∈ L, x < 10 := fun x hx => hL x (List.mem_cons_of_mem _ hx)
      simp only [List.map_cons, List.reverse_cons]
      rw [digitsVal_append_singleton, ih hL', digitChar_toNat hd,
        Nat.ofDigits_cons]
      omega

theorem digitsVal_natRepr (m : Nat) : digitsVal (natRepr m) = m := by
  unfold natRepr
  by_cases hm : m = 0
  · subst hm; decide
  · rw [if_neg hm,
      digitsVal_rev_map (fun d hd => Nat.digits_lt_base (by norm_num) hd),
      Nat.ofDigits_digits]

theorem digitsVal_replicate_zero (k : Nat) (cs : List Char) :
    digitsVal (List.replicate k '0' ++ cs) = digitsVal cs := by
  induction k with
  | zero => rfl
  | succ k ih =>
      have : List.replicate (k + 1) '0' ++ cs =
          '0' :: (List.replicate k '0' ++ cs) := by
        simp [List.replicate_succ]
      rw [this]
      unfold digitsVal at ih ⊢
      rw [List.foldl_cons]
      simpa using ih

theorem digitsVal_padZeros (w : Nat) (cs : List Char) :
    digitsVal (padZeros w cs) = digitsVal cs :=
  digitsVal_replicate_zero _ _

theorem natRepr_ne_nil (m : Nat) : natRepr m ≠ [] := by
  unfold natRepr
  by_cases hm : m = 0
  · simp [hm]
  · rw [if_neg hm]
    have hne : Nat.digits 10 m ≠ [] := Nat.digits_ne_nil_iff_ne_zero.mpr hm
    simp [hne]

theorem natRepr_all_digits (m : Nat) : (natRepr m).all isDigitChar = true := by
  rw [List.all_eq_true]
  intro c hc
  unfold natRepr at hc
  by_cases hm : m = 0
  · rw [if_pos hm] at hc
    simp only [List.mem_singleton] at hc
    subst hc; decide
  · rw [if_neg hm] at hc
    simp only [List.mem_reverse, List.mem_map] at hc
    obtain ⟨d, hd, rfl⟩ := hc
    exact isDigitChar_digitChar (Nat.digits_lt_base (by norm_num) hd)

theorem not_dot_of_isDigitChar {c : Char} (hc : isDigitChar c = true) :
    ¬c = '.' := by
  intro h
  subst h
  simp [isDigitChar] at hc

theorem splitAtDot_append {a : List Char} (b : List Char)
    (ha : ∀ c ∈ a, ¬c = '.') :
    splitAtDot (a ++ '.' :: b) = some (a, b) := by
  induction a with
  | nil => simp [splitAtDot]
  | cons c a ih =>
      have hc : ¬c = '.' := ha c (List.mem_cons_self c a)
      have ha' : ∀ x ∈ a, ¬x = '.' := fun x hx => ha x (List.mem_cons_of_mem _ hx)
      simp [splitAtDot, hc, ih ha']

theorem natRepr_length_le {m : Nat} (hm : m < 10 ^ 9) :
    (natRepr m).length ≤ 9 := by
  unfold natRepr
  by_cases h0 : m = 0
  · simp [h0]
  · rw [if_neg h0]
    simp only [List.length_reverse, List.length_map]
    by_contra hlen
    push_neg at hlen
    have h10 : 10 ≤ (Nat.digits 10 m).length := hlen
    have hp : 10 ^ (Nat.digits 10 m).length ≤ 10 * m :=
      Nat.base_pow_length_digits_le 10 m (by norm_num) h0
    have hpow : (10 : Nat) ^ 10 ≤ 10 ^ (Nat.digits 10 m).length :=
      Nat.pow_le_pow_right (by norm_num) h10
    have : (10 : Nat) ^ 10 ≤ 10 * m := le_trans hpow hp
    norm_num at this hm
    omega

theorem parse_secondsString (ns : Nat) :
    parseNonnegFloat (secondsString ns) = some ((ns : ℚ) / 10 ^ 9) := by
  have hq := digitsVal_natRepr (ns / 10 ^ 9)
  have hfrac : ns % 10 ^ 9 < 10 ^ 9 := Nat.mod_lt _ (by norm_num)
  have hflen : (natRepr (ns % 10 ^ 9)).length ≤ 9 := natRepr_length_le hfrac
  have hsplit :
      splitAtDot ((secondsString ns).data) =
        some (natRepr (ns / 10 ^ 9), padZeros 9 (natRepr (ns % 10 ^ 9))) := by
    show splitAtDot
        (natRepr (ns / 10 ^ 9) ++ '.' :: padZeros 9 (natRepr (ns % 10 ^ 9))) = _
    refine splitAtDot_append _ (fun c hc => ?_)
    have := List.all_eq_true.mp (natRepr_all_digits (ns / 10 ^ 9)) c hc
    exact not_dot_of_isDigitChar this
  have hipne : (natRepr (ns / 10 ^ 9)).isEmpty = false := by
    rcases h : natRepr (ns / 10 ^ 9) with _ | ⟨c, t⟩
    · exact absurd h (natRepr_ne_nil _)
    · rfl
  have hipd : (natRepr (ns / 10 ^ 9)).all isDigitChar = true :=
    natRepr_all_digits _
  have hfpd : (padZeros 9 (natRepr (ns % 10 ^ 9))).all isDigitChar = true := by
    rw [List.all_eq_true]
    intro c hc
    unfold padZeros at hc
    rcases List.mem_append.mp hc with h | h
    · have := List.eq_of_mem_replicate h
      subst this; decide
    · exact List.all_eq_true.mp (natRepr_all_digits _) c h
  have hfplen : (padZeros 9 (natRepr (ns % 10 ^ 9))).length = 9 := by
    unfold padZeros
    simp only [List.length_append, List.length_replicate]
    omega
  unfold parseNonnegFloat
  rw [hsplit]
  dsimp only
  have hcond : (!((natRepr (ns / 10 ^ 9)).isEmpty &&
      (padZeros 9 (natRepr (ns % 10 ^ 9))).isEmpty) &&
      (natRepr (ns / 10 ^ 9)).all isDigitChar &&
      (padZeros 9 (natRepr (ns % 10 ^ 9))).all isDigitChar) = true := by
    rw [hipne, hipd, hfpd]
    rfl
  rw [if_pos hcond]
  congr 1
  rw [digitsVal_padZeros, hq, digitsVal_natRepr, hfplen]
  have hdm : 10 ^ 9 * (ns / 10 ^ 9) + ns % 10 ^ 9 = ns :=
    Nat.div_add_mod ns (10 ^ 9)
  have hcast : (10 : ℚ) ^ 9 * ((ns / 10 ^ 9 : Nat) : ℚ) +
      ((ns % 10 ^ 9 : Nat) : ℚ) = (ns : ℚ) := by
    exact_mod_cast congrArg (fun k : Nat => (k : ℚ)) hdm
  field_simp
  linarith

/-! ### Requests, responses, exceptions, JSON values -/

/-- A JSON value as produced by the handlers and the structured formatter. -/
inductive JValue where
  | null
  | str (s : String)
  | num (n : Nat)
  | bool (b : Bool)
  | obj (fields : List (String × JValue))

/-- `None`-aware embedding of an optional string into JSON. -/
def jOptStr : Option String → JValue
  | none => .null
  | some s => .str s

/-- A Python exception value: its type's name and its message.  Re-raising
"the same exception" is modelled as returning the identical value. -/
structure PyException where
  type_name : String
  message : String
deriving DecidableEq, Repr

/-- An HTTP response: status code, headers, and a body of type `β`. -/
structure Response (β : Type) where
  status_code : Nat
  headers : List (String × String)
  body : β
deriving DecidableEq, Repr

/-- The fields of a Starlette `Request` that the embedded code reads, plus the
`request.state` attributes written by `CorrelationMiddleware`. -/
structure ModelRequest where
  method : String
  path : String
  query_params : List (String × String)
  path_params : List (String × String)
  headers : List (String × String)
  client : Option (String × Nat)
  state_correlation_id : Option String
  state_request_id : Option String
deriving DecidableEq, Repr

/-! ### RequestLoggingMiddleware (src/middleware/request_logging.py) -/

/-- The `important_headers` dict of `RequestLoggingMiddleware.dispatch`:
presence booleans for `Authorization` and `X-API-Key`, plus the values of
`Accept` and `Accept-Language`. -/
structure HeadersInfo where
  authorization_present : Bool
  x_api_key_present : Bool
  accept : Option String
  accept_language : Option String
deriving DecidableEq, Repr

/-- The `request_data` kwargs of the start-of-request log call. -/
structure StartLogRecord where
  message : String
  method : String
  path : String
  query_params : Option (List (String × String))
  path_params : Option (List (String × String))
  client : Option String
  user_agent : Option String
  content_type : Option String
  correlation_id : Option String
  request_id : Option String
  headers_info : HeadersInfo
deriving DecidableEq, Repr

/-- The kwargs of the failure log call (`logger.exception` in the middleware's
`except` branch); `traceback_captured` records that `logger.exception`
attaches the active exception with its stack trace. -/
structure FailureLogRecord where
  message : String
  method : String
  path : String
  process_time_ms : ℚ
  correlation_id : Option String
  request_id : Option String
  exception_type : String
  traceback_captured : Bool
deriving DecidableEq, Repr

/-- One emitted log event of the request-logging middleware. -/
inductive LogEvent where
  | start (r : StartLogRecord)
  | completion (message : String) (status_code : Nat) (process_time_ms : ℚ)
  | failure (r : FailureLogRecord)
deriving DecidableEq, Repr

/-- Whether an event is the failure record. -/
def LogEvent.isFailure : LogEvent → Bool
  | .failure _ => true
  | _ => false

/-- `dict(pairs)`: fold the pairs left to right, each key keeping its first
position but taking its last assigned value. -/
def dictInsert (m : List (String × String)) (kv : String × String) :
    List (String × String) :=
  if m.any (fun p => p.1 == kv.1) then
    m.map (fun p => if p.1 == kv.1 then (p.1, kv.2) else p)
  else m ++ [kv]

/-- `dict(request.query_params)`. -/
def toDict (l : List (String × String)) : List (String × String) :=
  l.foldl dictInsert []

/-- The `important_headers` dict built by the middleware. -/
def buildHeadersInfo (req : ModelRequest) : HeadersInfo :=
  { authorization_present := (lookupKey req.headers "Authorization").isSome,
    x_api_key_present := (lookupKey req.headers "X-API-Key").isSome,
    accept := lookupKey req.headers "Accept",
    accept_language := lookupKey req.headers "Accept-Language" }

/-- The `request_data` dict built at the start of
`RequestLoggingMiddleware.dispatch`.  `request.path_params` always exists on a
Starlette request, so the `hasattr` guard always takes the attribute. -/
def buildStartRecord (req : ModelRequest) : StartLogRecord :=
  { message := "👉 Request started",
    method := req.method,
    path := req.path,
    query_params :=
      if req.query_params.isEmpty then none else some (toDict req.query_params),
    path_params := some req.path_params,
    client := req.client.map (fun c => c.1 ++ ":" ++ toString c.2),
    user_agent := lookupKey req.headers "User-Agent",
    content_type := lookupKey req.headers "Content-Type",
    correlation_id := req.state_correlation_id,
    request_id := req.state_request_id,
    headers_info := buildHeadersInfo req }

/-- `RequestLoggingMiddleware.dispatch`.  `t0` and `t1` are the two
`time.perf_counter()` readings (nanosecond ticks), `outcome` is the result of
`await call_next(request)`.  Returns the middleware's own result together with
the list of log events it emitted, in order. -/
def requestLoggingDispatch {β : Type} (req : ModelRequest) (t0 t1 : Nat)
    (outcome : Except PyException (Response β)) :
    Except PyException (Response β) × List LogEvent :=
  match outcome with
  | .ok resp =>
      (.ok { resp with
          headers := setHeader resp.headers "X-Process-Time"
            (secondsString (t1 - t0)) },
       [.start (buildStartRecord req),
        .completion ("🏁 " ++ toString resp.status_code ++ " Request completed")
          resp.status_code
          (pyRound2 ((((t1 - t0 : Nat) : ℚ) / 10 ^ 9) * 1000))])
  | .error e =>
      (.error e,
       [.start (buildStartRecord req),
        .failure
          { message := "Request failed with exception",
            method := req.method,
            path := req.path,
            process_time_ms := pyRound2 ((((t1 - t0 : Nat) : ℚ) / 10 ^ 9) * 1000),
            correlation_id := req.state_correlation_id,
            request_id := req.state_request_id,
            exception_type := e.type_name,
            traceback_captured := true }])

/-! ### CorrelationMiddleware (src/middleware/correlation.py) -/

/-- Result of one run of `CorrelationMiddleware.dispatch`: the returned
response or propagated exception, the ambient store after the `finally`
block, the request object (whose `state` the middleware mutated), and the log
events emitted by the inner application. -/
structure DispatchResult (β : Type) where
  result : Except PyException (Response β)
  store : ContextStore
  request : ModelRequest
  logs : List LogEvent

/-- `CorrelationMiddleware.dispatch`.  `freshC` and `freshR` are the two
`str(uuid.uuid4())` calls.  `call_next` receives the ambient store and the
request (with `state` set) and returns its outcome, the store it leaves
behind, and the log events it emitted.  The `try/finally` of the source is
the `clear_context_vars` applied on both branches of the match. -/
def correlationDispatch {β : Type} (req : ModelRequest)
    (freshC freshR : String) (store : ContextStore)
    (call_next : ContextStore → ModelRequest →
      Except PyException (Response β) × ContextStore × List LogEvent) :
    DispatchResult β :=
  let correlation_id := resolveCorrelationId req.headers freshC
  let request_id := resolveRequestId req.headers freshR
  let store1 := bind_context_vars store (some correlation_id) (some request_id)
  let req1 := { req with
    state_correlation_id := some correlation_id,
    state_request_id := some request_id }
  match call_next store1 req1 with
  | (.ok r, store2, logs) =>
      ⟨.ok { r with
          headers := setHeader (setHeader r.headers "X-Correlation-ID"
            correlation_id) "X-Request-ID" request_id },
        clear_context_vars store2, req1, logs⟩
  | (.error e, store2, logs) =>
      ⟨.error e, clear_context_vars store2, req1, logs⟩

/-! ### general_exception_handler (src/core/exception_handlers.py) -/

/-- The kwargs of the `logger.exception` call inside
`general_exception_handler`. -/
structure HandlerLogRecord where
  message : String
  exception_type : String
  path : String
  method : String
  correlation_id : Option String
  request_id : Option String
  traceback_captured : Bool
deriving DecidableEq, Repr

/-- `general_exception_handler`: logs the real exception type with its stack
trace and returns a 500 `JSONResponse` with the fixed detail string.  A
`JSONResponse` carries only its own `content-type` header. -/
def general_exception_handler (req : ModelRequest) (exc : PyException) :
    HandlerLogRecord × Response (List (String × JValue)) :=
  ({ message := "Unhandled exception occurred",
     exception_type := exc.type_name,
     path := req.path,
     method := req.method,
     correlation_id := req.state_correlation_id,
     request_id := req.state_request_id,
     traceback_captured := true },
   { status_code := 500,
     headers := [("content-type", "application/json")],
     body := [("detail", .str "Internal server error"),
              ("correlation_id", jOptStr req.state_correlation_id),
              ("request_id", jOptStr req.state_request_id)] })

/-- The outermost layer of the stack built in `main.py`: Starlette's
`ServerErrorMiddleware` holds the handler registered for `Exception` and
wraps `CorrelationMiddleware` (the last middleware added).  If the wrapped
application raises, the handler's response is sent to the client. -/
def appPipeline (req : ModelRequest) (freshC freshR : String)
    (store : ContextStore)
    (call_next : ContextStore → ModelRequest →
      Except PyException (Response (List (String × JValue))) × ContextStore ×
        List LogEvent) :
    Response (List (String × JValue)) × ContextStore :=
  let d := correlationDispatch req freshC freshR store call_next
  match d.result with
  | .ok r => (r, d.store)
  | .error e => ((general_exception_handler d.request e).2, d.store)

/-! ### serialize_record (src/core/logging.py, structured mode) -/

/-- The exception slot of a loguru record: the exception type's `__name__`,
`str(value)`, and the joined output of `traceback.format_exception`. -/
structure ExcInfo where
  type_name : String
  value_str : String
  traceback_str : String
deriving DecidableEq, Repr

/-- The parts of a loguru record that `serialize_record` reads:
`record["time"].isoformat()` is carried as the already-rendered ISO-8601
string. -/
structure LoguruRecord where
  time_iso : String
  level_name : String
  logger_name : String
  message : String
  exception : Option ExcInfo
  extra : List (String × JValue)

/-- `serialize_record`: the `subset` dict serialized for production/staging.
The ambient IDs are read from the context variables at serialization time;
the `exception` and `extra` keys are added only when truthy. -/
def serialize_record (store : ContextStore) (r : LoguruRecord) :
    List (String × JValue) :=
  let subset : List (String × JValue) :=
    [("timestamp", .str r.time_iso),
     ("level", .str r.level_name),
     ("logger", .str r.logger_name),
     ("message", .str r.message),
     ("correlation_id", jOptStr store.correlation_id),
     ("request_id", jOptStr store.request_id)]
  let subset1 := match r.exception with
    | some e =>
        subset ++ [("exception", .obj
          [("type", .str e.type_name),
           ("value", .str e.value_str),
           ("traceback", .str e.traceback_str)])]
    | none => subset
  match r.extra with
  | [] => subset1
  | _ => subset1 ++ [("extra", .obj r.extra)]

/-! ### Concurrent context isolation

The ambient store is a pair of `contextvars.ContextVar` cells.  Under
asyncio's cooperative scheduling each task runs in its own context, so a
`ContextVar.set` performed while handling one request is visible only to that
request's task.  The model below is an interleaving semantics over a family
of tasks, each with its own copy of the two cells; a step executes the next
instruction of any one task.  A request's processing is the program
`bind ids; (log | suspend)*; clear`, mirroring `CorrelationMiddleware`'s
bind / `finally`-clear bracket with arbitrary handler activity (including
suspension points) in between.  A `log` instruction appends to the shared
journal the IDs its own task's cells hold at that moment, which is what the
structured sink records for the emitted line. -/

/-- One instruction of a task. -/
inductive TaskInstr where
  | bind (correlation_id request_id : String)
  | log (message : String)
  | suspend
  | clear
deriving DecidableEq, Repr

/-- A journal entry: which task logged, and the ambient IDs the log line was
tagged with. -/
structure JournalEntry where
  task : Nat
  correlation_id : Option String
  request_id : Option String
deriving DecidableEq, Repr

/-- The scheduler state: per-task remaining programs, per-task context cells,
and the shared journal of emitted log lines. -/
structure Sched where
  progs : Nat → List TaskInstr
  stores : Nat → ContextStore
  journal : List JournalEntry

/-- Pointwise update of a task-indexed family. -/
def setTask {α : Type} (f : Nat → α) (i : Nat) (a : α) : Nat → α :=
  fun j => if j = i then a else f j

/-- One interleaving step: some task executes its next instruction.  `bind`
and `clear` touch only the acting task's own cells (the per-task-context
semantics of `ContextVar` under asyncio); `log` appends the acting task's
current IDs to the journal; `suspend` models an await point. -/
inductive SchedStep : Sched → Sched → Prop where
  | bind (s : Sched) (i : Nat) (c r : String) (rest : List TaskInstr)
      (h : s.progs i = .bind c r :: rest) :
      SchedStep s ⟨setTask s.progs i rest,
        setTask s.stores i (bind_context_vars (s.stores i) (some c) (some r)),
        s.journal⟩
  | log (s : Sched) (i : Nat) (m : String) (rest : List TaskInstr)
      (h : s.progs i = .log m :: rest) :
      SchedStep s ⟨setTask s.progs i rest, s.stores,
        s.journal ++
          [⟨i, (s.stores i).correlation_id, (s.stores i).request_id⟩]⟩
  | suspend (s : Sched) (i : Nat) (rest : List TaskInstr)
      (h : s.progs i = .suspend :: rest) :
      SchedStep s ⟨setTask s.progs i rest, s.stores, s.journal⟩
  | clear (s : Sched) (i : Nat) (rest : List TaskInstr)
      (h : s.progs i = .clear :: rest) :
      SchedStep s ⟨setTask s.progs i rest,
        setTask s.stores i (clear_context_vars (s.stores i)), s.journal⟩

/-- Any interleaving of steps. -/
def SchedReach : Sched → Sched → Prop := Relation.ReflTransGen SchedStep

/-- Instructions allowed in the body of a request program: handler activity
(logging and suspension), but no direct manipulation of the ambient store —
the collaborator contract. -/
def isBodyInstr : TaskInstr → Bool
  | .log _ => true
  | .suspend => true
  | _ => false

/-- The program run by the task handling one request: bind the resolved IDs,
run the handler body, and clear the cells in the `finally` block. -/
def requestProgram (c r : String) (body : List TaskInstr) : List TaskInstr :=
  .bind c r :: body ++ [.clear]

/-- Invariant on the distinguished task `i`: it is before its `bind` with an
untouched store, inside its body with both cells bound, or finished with the
cells cleared. -/
def TaskPhase (i : Nat) (c r : String) (body : List TaskInstr) (s : Sched) :
    Prop :=
  (s.progs i = requestProgram c r body ∧ s.stores i = ContextStore.unset) ∨
  (∃ tail, s.progs i = tail ++ [.clear] ∧
    (∀ ins ∈ tail, isBodyInstr ins = true) ∧
    s.stores i = ⟨some c, some r⟩) ∨
  (s.progs i = [] ∧ s.stores i = ContextStore.unset)

/-- Every journal entry attributed to task `i` is tagged with exactly the IDs
of the request task `i` handles. -/
def JournalOk (i : Nat) (c r : String) (s : Sched) : Prop :=
  ∀ e ∈ s.journal, e.task = i →
    e.correlation_id = some c ∧ e.request_id = some r

theorem setTask_same {α : Type} (f : Nat → α) (i : Nat) (a : α) :
    setTask f i a i = a := by
  simp [setTask]

theorem setTask_other {α : Type} (f : Nat → α) {i j : Nat} (a : α)
    (hij : j ≠ i) : setTask f i a j = f j := by
  simp [setTask, hij]

theorem bind_context_vars_both {c r : String} (hc : c ≠ "") (hr : r ≠ "")
    (s : ContextStore) :
    bind_context_vars s (some c) (some r) = ⟨some c, some r⟩ := by
  have hc' : c.isEmpty = false := by
    rw [Bool.eq_false_iff]
    exact fun h => hc ((String.isEmpty_iff c).mp h)
  have hr' : r.isEmpty = false := by
    rw [Bool.eq_false_iff]
    exact fun h => hr ((String.isEmpty_iff r).mp h)
  simp [bind_context_vars, pyTruthy, hc', hr']

theorem taskPhase_of_eq {i : Nat} {c r : String} {body : List TaskInstr}
    {s s' : Sched}
    (hp : s'.progs i = s.progs i) (hs : s'.stores i = s.stores i)
    (hphase : TaskPhase i c r body s) : TaskPhase i c r body s' := by
  rcases hphase with ⟨h1, h2⟩ | ⟨tail, h1, h2, h3⟩ | ⟨h1, h2⟩
  · exact Or.inl ⟨hp.trans h1, hs.trans h2⟩
  · exact Or.inr (Or.inl ⟨tail, hp.trans h1, h2, hs.trans h3⟩)
  · exact Or.inr (Or.inr ⟨hp.trans h1, hs.trans h2⟩)

theorem schedStep_inv {i : Nat} {c r : String} {body : List TaskInstr}
    {s s' : Sched}
    (hc : c ≠ "") (hr : r ≠ "")
    (hbody : ∀ ins ∈ body, isBodyInstr ins = true)
    (hstep : SchedStep s s')
    (hphase : TaskPhase i c r body s) (hjournal : JournalOk i c r s) :
    TaskPhase i c r body s' ∧ JournalOk i c r s' := by
  cases hstep with
  | bind j c' r' rest h =>
      by_cases hij : j = i
      · subst hij
        rcases hphase with ⟨hp, hs⟩ | ⟨tail, hp, htail, hs⟩ | ⟨hp, hs⟩
        · -- the task executes its opening bind
          have h' : requestProgram c r body = TaskInstr.bind c' r' :: rest :=
            hp.symm.trans h
          unfold requestProgram at h'
          injection h' with h1 h2
          injection h1 with hcc hrr
          refine ⟨Or.inr (Or.inl ⟨body, ?_, hbody, ?_⟩), hjournal⟩
          · dsimp only
            rw [setTask_same]
            exact h2.symm
          · dsimp only
            rw [setTask_same, ← hcc, ← hrr, bind_context_vars_both hc hr]
        · -- a bind cannot occur inside the body bracket
          exfalso
          rcases tail with _ | ⟨t, ts⟩
          · rw [hp] at h
            simp at h
          · rw [hp] at h
            injection h with h1 _
            have hbt := htail t (List.mem_cons_self t ts)
            rw [h1] at hbt
            simp [isBodyInstr] at hbt
        · exfalso
          rw [hp] at h
          simp at h
      · refine ⟨taskPhase_of_eq ?_ ?_ hphase, hjournal⟩
        · exact setTask_other _ _ (Ne.symm hij)
        · exact setTask_other _ _ (Ne.symm hij)
  | log j m rest h =>
      have hjournal' :
          JournalOk i c r ⟨setTask s.progs j rest, s.stores,
            s.journal ++
              [⟨j, (s.stores j).correlation_id, (s.stores j).request_id⟩]⟩ := by
        intro e he hei
        dsimp only at he
        rcases List.mem_append.mp he with he | he
        · exact hjournal e he hei
        · rcases List.mem_singleton.mp he with rfl
          dsimp only at hei
          subst hei
          rcases hphase with ⟨hp, hs⟩ | ⟨tail, hp, htail, hs⟩ | ⟨hp, hs⟩
          · exfalso; rw [hp] at h; simp [requestProgram] at h
          · simp [hs]
          · exfalso; rw [hp] at h; simp at h
      by_cases hij : j = i
      · subst hij
        rcases hphase with ⟨hp, hs⟩ | ⟨tail, hp, htail, hs⟩ | ⟨hp, hs⟩
        · exfalso; rw [hp] at h; simp [requestProgram] at h
        · rcases tail with _ | ⟨t, ts⟩
          · exfalso
            rw [hp] at h
            simp at h
          · rw [hp] at h
            injection h with _ h2
            refine ⟨Or.inr (Or.inl ⟨ts,
              ?_, fun x hx => htail x (List.mem_cons_of_mem _ hx), hs⟩),
              hjournal'⟩
            dsimp only
            rw [setTask_same]
            exact h2.symm
        · exfalso; rw [hp] at h; simp at h
      · refine ⟨taskPhase_of_eq ?_ ?_ hphase, hjournal'⟩
        · exact setTask_other _ _ (Ne.symm hij)
        · rfl
  | suspend j rest h =>
      by_cases hij : j = i
      · subst hij
        rcases hphase with ⟨hp, hs⟩ | ⟨tail, hp, htail, hs⟩ | ⟨hp, hs⟩
        · exfalso; rw [hp] at h; simp [requestProgram] at h
        · rcases tail with _ | ⟨t, ts⟩
          · exfalso
            rw [hp] at h
            simp at h
          · rw [hp] at h
            injection h with _ h2
            refine ⟨Or.inr (Or.inl ⟨ts,
              ?_, fun x hx => htail x (List.mem_cons_of_mem _ hx), hs⟩),
              hjournal⟩
            dsimp only
            rw [setTask_same]
            exact h2.symm
        · exfalso; rw [hp] at h; simp at h
      · refine ⟨taskPhase_of_eq ?_ ?_ hphase, hjournal⟩
        · exact setTask_other _ _ (Ne.symm hij)
        · rfl
  | clear j rest h =>
      by_cases hij : j = i
      · subst hij
        rcases hphase with ⟨hp, hs⟩ | ⟨tail, hp, htail, hs⟩ | ⟨hp, hs⟩
        · exfalso; rw [hp] at h; simp [requestProgram] at h
        · rcases tail with _ | ⟨t, ts⟩
          · rw [hp] at h
            injection h with _ h2
            refine ⟨Or.inr (Or.inr ⟨?_, ?_⟩), hjournal⟩
            · dsimp only
              rw [setTask_same]
              exact h2.symm
            · dsimp only
              rw [setTask_same]
              rfl
          · exfalso
            rw [hp] at h
            injection h with h1 _
            have hbt := htail t (List.mem_cons_self t ts)
            rw [h1] at hbt
            simp [isBodyInstr] at hbt
        · exfalso; rw [hp] at h; simp at h
      · refine ⟨taskPhase_of_eq ?_ ?_ hphase, hjournal⟩
        · exact setTask_other _ _ (Ne.symm hij)
        · exact setTask_other _ _ (Ne.symm hij)


theorem schedReach_inv {i : Nat} {c r : String} {body : List TaskInstr}
    {s0 s' : Sched}
    (hc : c ≠ "") (hr : r ≠ "")
    (hbody : ∀ ins ∈ body, isBodyInstr ins = true)
    (hreach : SchedReach s0 s')
    (h0 : TaskPhase i c r body s0 ∧ JournalOk i c r s0) :
    TaskPhase i c r body s' ∧ JournalOk i c r s' := by
  induction hreach with
  | refl => exact h0
  | tail _ hstep ih => exact schedStep_inv hc hr hbody hstep ih.1 ih.2

/-! ### Further lemmas about lookup under filtering -/

theorem lookupKey_filter_self {hs : List (String × String)} {n : String} :
    lookupKey (hs.filter (fun p => p.1 != n)) n = none := by
  unfold lookupKey
  have h1 : (hs.filter (fun p => p.1 != n)).find? (fun p => p.1 == n) = none := by
    rw [List.find?_eq_none]
    intro x hx
    have hkeep := List.of_mem_filter hx
    simp only [bne_iff_ne, ne_eq] at hkeep
    simp [hkeep]
  rw [h1]
  rfl

theorem lookupKey_filter_other {hs : List (String × String)} {n m : String}
    (hnm : m ≠ n) :
    lookupKey (hs.filter (fun p => p.1 != n)) m = lookupKey hs m := by
  unfold lookupKey
  rw [find?_filter_ne_key hnm]

/-! ### Claim theorems -/

/-- C2 counterexample: the spec says the resolved correlation_id equals the
`X-Correlation-ID` header value whenever that header is present, but for a
present header with the empty-string value the code's truthiness test
(`if not correlation_id`) discards it and falls back to `X-Request-ID`:
the resolved value is `"xyz"`, not the present header's value `""`. -/
theorem c2_counterexample :
    resolveCorrelationId
      [("X-Correlation-ID", ""), ("X-Request-ID", "xyz")]
      "11111111-2222-4333-8444-555555555555" = "xyz" ∧
    ¬("xyz" : String) = "" := by
  exact ⟨rfl, by decide⟩

/-- C2 (amended): ID resolution follows the header-precedence chain with
Python truthiness — a present but empty `X-Correlation-ID` (resp. the
`X-Request-ID` fallback) counts as absent for the correlation_id, while the
request_id adopts the `X-Request-ID` header verbatim whenever present and
otherwise is a freshly generated UUID in standard string form.  If only
`X-Request-ID: xyz` is supplied with `xyz` non-empty, both resolved IDs equal
`xyz`. -/
theorem c2_resolution (hs : List (String × String)) (rc rr : Nat) :
    (∀ v, lookupKey hs "X-Correlation-ID" = some v → ¬v = "" →
      resolveCorrelationId hs (uuid4String rc) = v) ∧
    (pyTruthy (lookupKey hs "X-Correlation-ID") = false →
      ∀ v, lookupKey hs "X-Request-ID" = some v → ¬v = "" →
        resolveCorrelationId hs (uuid4String rc) = v) ∧
    (pyTruthy (lookupKey hs "X-Correlation-ID") = false →
      pyTruthy (lookupKey hs "X-Request-ID") = false →
      resolveCorrelationId hs (uuid4String rc) = uuid4String rc ∧
        IsUuidStringForm (resolveCorrelationId hs (uuid4String rc))) ∧
    (∀ v, lookupKey hs "X-Request-ID" = some v →
      resolveRequestId hs (uuid4String rr) = v) ∧
    (lookupKey hs "X-Request-ID" = none →
      resolveRequestId hs (uuid4String rr) = uuid4String rr ∧
        IsUuidStringForm (resolveRequestId hs (uuid4String rr))) ∧
    (lookupKey hs "X-Correlation-ID" = none →
      ∀ v, lookupKey hs "X-Request-ID" = some v → ¬v = "" →
        resolveCorrelationId hs (uuid4String rc) = v ∧
          resolveRequestId hs (uuid4String rr) = v) := by
  refine ⟨?_, ?_, ?_, ?_, ?_, ?_⟩
  · intro v hv hne
    have ht : pyTruthy (some v) = true := by
      simp only [pyTruthy, Bool.not_eq_true']
      rw [Bool.eq_false_iff]
      exact fun h => hne ((String.isEmpty_iff v).mp h)
    simp [resolveCorrelationId, hv, ht]
  · intro hf v hv hne
    have ht : pyTruthy (some v) = true := by
      simp only [pyTruthy, Bool.not_eq_true']
      rw [Bool.eq_false_iff]
      exact fun h => hne ((String.isEmpty_iff v).mp h)
    simp [resolveCorrelationId, hf, hv, ht]
  · intro hf1 hf2
    have heq : resolveCorrelationId hs (uuid4String rc) = uuid4String rc := by
      simp [resolveCorrelationId, hf1, hf2]
    refine ⟨heq, ?_⟩
    rw [heq]
    exact uuid4String_form rc
  · intro v hv
    simp [resolveRequestId, hv]
  · intro hv
    have heq : resolveRequestId hs (uuid4String rr) = uuid4String rr := by
      simp [resolveRequestId, hv]
    refine ⟨heq, ?_⟩
    rw [heq]
    exact uuid4String_form rr
  · intro hc v hv hne
    have ht : pyTruthy (some v) = true := by
      simp only [pyTruthy, Bool.not_eq_true']
      rw [Bool.eq_false_iff]
      exact fun h => hne ((String.isEmpty_iff v).mp h)
    have hf : pyTruthy (lookupKey hs "X-Correlation-ID") = false := by
      rw [hc]; rfl
    refine ⟨?_, by simp [resolveRequestId, hv]⟩
    simp [resolveCorrelationId, hf, hv, ht]

/-- C2 witness: with only `X-Request-ID: xyz` supplied, both resolved IDs
equal `xyz`; with no ID headers at all, the resolved correlation_id is the
generated value in standard UUID string form. -/
theorem c2_resolution_witness :
    resolveCorrelationId [("X-Request-ID", "xyz")] (uuid4String 0) = "xyz" ∧
    resolveRequestId [("X-Request-ID", "xyz")] (uuid4String 1) = "xyz" ∧
    IsUuidStringForm (resolveCorrelationId [] (uuid4String 0)) ∧
    IsUuidStringForm (resolveRequestId [] (uuid4String 1)) :=
  ⟨((c2_resolution [("X-Request-ID", "xyz")] 0 1).2.1 (by decide) "xyz"
      (by decide) (by decide)),
   ((c2_resolution [("X-Request-ID", "xyz")] 0 1).2.2.2.1 "xyz" (by decide)),
   ((c2_resolution [] 0 1).2.2.1 rfl rfl).2,
   ((c2_resolution [] 0 1).2.2.2.2.1 rfl).2⟩

/-- C10: empty-valued ID headers are treated asymmetrically.  A present
`X-Correlation-ID` with value `""` makes the correlation resolution behave
exactly as if that header were absent, while a present `X-Request-ID` with
value `""` is adopted verbatim as the request_id yet is still not used as the
correlation fallback (the correlation_id then comes from the generated
UUID). -/
theorem c10_empty_header_asymmetry (hs : List (String × String))
    (f fr : String) :
    (lookupKey hs "X-Correlation-ID" = some "" →
      resolveCorrelationId hs f =
        resolveCorrelationId
          (hs.filter (fun p => p.1 != "X-Correlation-ID")) f) ∧
    (lookupKey hs "X-Request-ID" = some "" →
      resolveRequestId hs fr = "" ∧
      (pyTruthy (lookupKey hs "X-Correlation-ID") = false →
        resolveCorrelationId hs f = f)) := by
  have hfalse : pyTruthy (some "") = false := by decide
  constructor
  · intro h
    have h1 : lookupKey
        (hs.filter (fun p => p.1 != "X-Correlation-ID")) "X-Correlation-ID" =
        none := lookupKey_filter_self
    have h2 : lookupKey
        (hs.filter (fun p => p.1 != "X-Correlation-ID")) "X-Request-ID" =
        lookupKey hs "X-Request-ID" :=
      lookupKey_filter_other (by decide)
    have hn : pyTruthy (none : Option String) = false := rfl
    simp [resolveCorrelationId, h, h1, h2, hfalse, hn]
  · intro h
    refine ⟨by simp [resolveRequestId, h], ?_⟩
    intro hf
    simp [resolveCorrelationId, h, hf, hfalse]

/-- C10 witness: with both headers present and empty, the request_id resolves
to the empty string while the correlation_id resolves to the generated
UUID. -/
theorem c10_empty_header_asymmetry_witness :
    (resolveCorrelationId [("X-Correlation-ID", ""), ("X-Request-ID", "")]
        "gen-c" =
      resolveCorrelationId
        ([("X-Correlation-ID", ""), ("X-Request-ID", "")].filter
          (fun p => p.1 != "X-Correlation-ID")) "gen-c") ∧
    resolveRequestId [("X-Correlation-ID", ""), ("X-Request-ID", "")]
      "gen-r" = "" ∧
    resolveCorrelationId [("X-Correlation-ID", ""), ("X-Request-ID", "")]
      "gen-c" = "gen-c" :=
  ⟨(c10_empty_header_asymmetry
      [("X-Correlation-ID", ""), ("X-Request-ID", "")] "gen-c" "gen-r").1
      (by decide),
   ((c10_empty_header_asymmetry
      [("X-Correlation-ID", ""), ("X-Request-ID", "")] "gen-c" "gen-r").2
      (by decide)).1,
   ((c10_empty_header_asymmetry
      [("X-Correlation-ID", ""), ("X-Request-ID", "")] "gen-c" "gen-r").2
      (by decide)).2 (by decide)⟩

/-- C3: guaranteed context teardown.  Whatever the inner application does —
return a response, or raise — the `finally` block of
`CorrelationMiddleware.dispatch` leaves both ambient cells unset before
control leaves the middleware. -/
theorem c3_context_teardown {β : Type} (req : ModelRequest) (fC fR : String)
    (store : ContextStore)
    (next : ContextStore → ModelRequest →
      Except PyException (Response β) × ContextStore × List LogEvent) :
    (correlationDispatch req fC fR store next).store = ContextStore.unset ∧
    (correlationDispatch req fC fR store next).store.correlation_id = none ∧
    (correlationDispatch req fC fR store next).store.request_id = none := by
  have h : (correlationDispatch req fC fR store next).store =
      ContextStore.unset := by
    simp only [correlationDispatch]
    rcases hnx : next
        (bind_context_vars store (some (resolveCorrelationId req.headers fC))
          (some (resolveRequestId req.headers fR)))
        { req with
          state_correlation_id := some (resolveCorrelationId req.headers fC),
          state_request_id := some (resolveRequestId req.headers fR) } with
      ⟨res, st2, lg⟩
    cases res <;> rfl
  exact ⟨h, by rw [h]; rfl, by rw [h]; rfl⟩


/-- A sample request used by the concrete witnesses below. -/
def sampleRequest : ModelRequest :=
  { method := "GET",
    path := "/items/42",
    query_params := [("q", "abc")],
    path_params := [],
    headers := [("User-Agent", "pytest"), ("Authorization", "Bearer tok")],
    client := some ("127.0.0.1", 50000),
    state_correlation_id := some "cid-1",
    state_request_id := some "rid-1" }

/-- C4: failure observation is pass-through.  When the downstream handler
raises, `RequestLoggingMiddleware.dispatch` emits exactly one failure record
— carrying the method, the path, the non-negative rounded elapsed
milliseconds, the state correlation/request IDs, the exception's type name
and the captured stack trace — and re-raises the identical exception. -/
theorem c4_failure_passthrough {β : Type} (req : ModelRequest) (t0 t1 : Nat)
    (e : PyException) (_hmono : t0 ≤ t1) :
    requestLoggingDispatch req t0 t1
        (.error e : Except PyException (Response β)) =
      (.error e,
       [.start (buildStartRecord req),
        .failure
          { message := "Request failed with exception",
            method := req.method,
            path := req.path,
            process_time_ms :=
              pyRound2 ((((t1 - t0 : Nat) : ℚ) / 10 ^ 9) * 1000),
            correlation_id := req.state_correlation_id,
            request_id := req.state_request_id,
            exception_type := e.type_name,
            traceback_captured := true }]) ∧
    0 ≤ pyRound2 ((((t1 - t0 : Nat) : ℚ) / 10 ^ 9) * 1000) ∧
    ((requestLoggingDispatch req t0 t1
        (.error e : Except PyException (Response β))).2.filter
      LogEvent.isFailure).length = 1 := by
  refine ⟨rfl, pyRound2_nonneg (by positivity), ?_⟩
  simp [requestLoggingDispatch, LogEvent.isFailure, List.filter]

/-- C4 witness: a concrete failing request. -/
theorem c4_failure_passthrough_witness :
    (3 : Nat) ≤ 5 ∧
    ((requestLoggingDispatch sampleRequest 3 5
        (.error ⟨"ValueError", "boom"⟩ : Except PyException
          (Response String))).2.filter LogEvent.isFailure).length = 1 :=
  ⟨by decide,
   (@c4_failure_passthrough String sampleRequest 3 5
      ⟨"ValueError", "boom"⟩ (by decide)).2.2⟩

/-- C5: successful completion.  On a normal downstream return the middleware
emits one completion record carrying the response's status code and the
elapsed milliseconds rounded to two decimals, attaches an `X-Process-Time`
header whose value is the raw elapsed seconds rendered as a string that
parses back to the exact non-negative value, and leaves every other part of
the response unchanged. -/
theorem c5_success_completion {β : Type} (req : ModelRequest) (t0 t1 : Nat)
    (resp : Response β) (_hmono : t0 ≤ t1) :
    requestLoggingDispatch req t0 t1 (.ok resp) =
      (.ok { resp with
          headers := setHeader resp.headers "X-Process-Time"
            (secondsString (t1 - t0)) },
       [.start (buildStartRecord req),
        .completion ("🏁 " ++ toString resp.status_code ++ " Request completed")
          resp.status_code
          (pyRound2 ((((t1 - t0 : Nat) : ℚ) / 10 ^ 9) * 1000))]) ∧
    lookupKey (setHeader resp.headers "X-Process-Time"
        (secondsString (t1 - t0))) "X-Process-Time" =
      some (secondsString (t1 - t0)) ∧
    parseNonnegFloat (secondsString (t1 - t0)) =
      some (((t1 - t0 : Nat) : ℚ) / 10 ^ 9) ∧
    0 ≤ (((t1 - t0 : Nat) : ℚ) / 10 ^ 9) ∧
    (∀ m, ¬m = "X-Process-Time" →
      lookupKey (setHeader resp.headers "X-Process-Time"
          (secondsString (t1 - t0))) m =
        lookupKey resp.headers m) := by
  refine ⟨rfl, lookupKey_setHeader_same, parse_secondsString _, by positivity,
    fun m hm => lookupKey_setHeader_other hm⟩

/-- C5 witness: a concrete successful request; the rendered header value
parses back to the elapsed seconds. -/
theorem c5_success_completion_witness :
    (0 : Nat) ≤ 1500000000 ∧
    parseNonnegFloat (secondsString (1500000000 - 0)) =
      some (((1500000000 - 0 : Nat) : ℚ) / 10 ^ 9) :=
  ⟨by decide,
   (c5_success_completion sampleRequest 0 1500000000
      (⟨200, [], "ok"⟩ : Response String) (by decide)).2.2.1⟩

/-- C7: the unhandled-error envelope.  `general_exception_handler` answers
status 500 with exactly the fixed-detail JSON body carrying the state
correlation/request IDs; the detail string does not depend on the exception,
while the server-side log record carries the real exception type name with
the stack trace captured. -/
theorem c7_unhandled_error_envelope (req : ModelRequest)
    (exc exc' : PyException) :
    (general_exception_handler req exc).2.status_code = 500 ∧
    (general_exception_handler req exc).2.body =
      [("detail", .str "Internal server error"),
       ("correlation_id", jOptStr req.state_correlation_id),
       ("request_id", jOptStr req.state_request_id)] ∧
    (general_exception_handler req exc).2.body =
      (general_exception_handler req exc').2.body ∧
    (general_exception_handler req exc).1.exception_type = exc.type_name ∧
    (general_exception_handler req exc).1.traceback_captured = true :=
  ⟨rfl, rfl, rfl, rfl, rfl⟩


/-! ### Dispatch characterization lemmas -/

theorem correlationDispatch_ok {β : Type} {req : ModelRequest}
    {fC fR : String} {store : ContextStore}
    {next : ContextStore → ModelRequest →
      Except PyException (Response β) × ContextStore × List LogEvent}
    {resp : Response β} {store2 : ContextStore} {logs2 : List LogEvent}
    (hnext : next
        (bind_context_vars store (some (resolveCorrelationId req.headers fC))
          (some (resolveRequestId req.headers fR)))
        { req with
          state_correlation_id := some (resolveCorrelationId req.headers fC),
          state_request_id := some (resolveRequestId req.headers fR) } =
      (.ok resp, store2, logs2)) :
    correlationDispatch req fC fR store next =
      ⟨.ok { resp with
          headers := setHeader
            (setHeader resp.headers "X-Correlation-ID"
              (resolveCorrelationId req.headers fC))
            "X-Request-ID" (resolveRequestId req.headers fR) },
       ContextStore.unset,
       { req with
         state_correlation_id := some (resolveCorrelationId req.headers fC),
         state_request_id := some (resolveRequestId req.headers fR) },
       logs2⟩ := by
  simp only [correlationDispatch]
  rw [hnext]
  rfl

theorem correlationDispatch_error {β : Type} {req : ModelRequest}
    {fC fR : String} {store : ContextStore}
    {next : ContextStore → ModelRequest →
      Except PyException (Response β) × ContextStore × List LogEvent}
    {e : PyException} {store2 : ContextStore} {logs2 : List LogEvent}
    (hnext : next
        (bind_context_vars store (some (resolveCorrelationId req.headers fC))
          (some (resolveRequestId req.headers fR)))
        { req with
          state_correlation_id := some (resolveCorrelationId req.headers fC),
          state_request_id := some (resolveRequestId req.headers fR) } =
      (.error e, store2, logs2)) :
    correlationDispatch req fC fR store next =
      ⟨.error e, ContextStore.unset,
       { req with
         state_correlation_id := some (resolveCorrelationId req.headers fC),
         state_request_id := some (resolveRequestId req.headers fR) },
       logs2⟩ := by
  simp only [correlationDispatch]
  rw [hnext]
  rfl

/-- `buildStartRecord` depends on the request only through the listed fields
and header lookups. -/
theorem buildStartRecord_eq_of_lookups {r1 r2 : ModelRequest}
    (hm : r1.method = r2.method) (hp : r1.path = r2.path)
    (hq : r1.query_params = r2.query_params)
    (hpp : r1.path_params = r2.path_params)
    (hc : r1.client = r2.client)
    (hua : lookupKey r1.headers "User-Agent" =
      lookupKey r2.headers "User-Agent")
    (hct : lookupKey r1.headers "Content-Type" =
      lookupKey r2.headers "Content-Type")
    (hcid : r1.state_correlation_id = r2.state_correlation_id)
    (hrid : r1.state_request_id = r2.state_request_id)
    (hau : (lookupKey r1.headers "Authorization").isSome =
      (lookupKey r2.headers "Authorization").isSome)
    (hak : (lookupKey r1.headers "X-API-Key").isSome =
      (lookupKey r2.headers "X-API-Key").isSome)
    (hac : lookupKey r1.headers "Accept" = lookupKey r2.headers "Accept")
    (hal : lookupKey r1.headers "Accept-Language" =
      lookupKey r2.headers "Accept-Language") :
    buildStartRecord r1 = buildStartRecord r2 := by
  unfold buildStartRecord buildHeadersInfo
  rw [hm, hp, hq, hpp, hc, hua, hct, hcid, hrid, hau, hak, hac, hal]

/-- A downstream application that always raises. -/
def raisingNext (s : ContextStore) (_q : ModelRequest) :
    Except PyException (Response (List (String × JValue))) × ContextStore ×
      List LogEvent :=
  (.error ⟨"ValueError", "boom"⟩, s, [])

/-- A downstream application that returns a bare 200 response. -/
def echoNext (s : ContextStore) (_q : ModelRequest) :
    Except PyException (Response (List (String × JValue))) × ContextStore ×
      List LogEvent :=
  (.ok ⟨200, [], []⟩, s, [])

/-- C6 counterexample: for a request whose processing ends in an unhandled
exception, the 500 envelope is produced by the handler hosted in the
outermost `ServerErrorMiddleware`, above `CorrelationMiddleware`, whose
header-attaching line was skipped by the raise: the response reaching the
client carries neither `X-Correlation-ID` nor `X-Request-ID`. -/
theorem c6_counterexample :
    lookupKey (appPipeline sampleRequest "c0" "r0" ContextStore.unset
      raisingNext).1.headers "X-Correlation-ID" = none ∧
    lookupKey (appPipeline sampleRequest "c0" "r0" ContextStore.unset
      raisingNext).1.headers "X-Request-ID" = none ∧
    (appPipeline sampleRequest "c0" "r0" ContextStore.unset
      raisingNext).1.status_code = 500 :=
  ⟨rfl, rfl, rfl⟩

/-- C6 (amended): every response produced by downstream handling — normal
returns and handled-error responses alike — is returned with
`X-Correlation-ID` and `X-Request-ID` set to the resolved IDs; a request that
raises an unhandled exception instead yields the 500 envelope, which carries
the resolved IDs in its JSON body but not as response headers. -/
theorem c6_header_echo (req : ModelRequest) (fC fR : String)
    (store : ContextStore)
    (next : ContextStore → ModelRequest →
      Except PyException (Response (List (String × JValue))) × ContextStore ×
        List LogEvent) :
    (∀ resp store2 logs2,
      next
          (bind_context_vars store
            (some (resolveCorrelationId req.headers fC))
            (some (resolveRequestId req.headers fR)))
          { req with
            state_correlation_id := some (resolveCorrelationId req.headers fC),
            state_request_id := some (resolveRequestId req.headers fR) } =
        (.ok resp, store2, logs2) →
      lookupKey (appPipeline req fC fR store next).1.headers
          "X-Correlation-ID" = some (resolveCorrelationId req.headers fC) ∧
      lookupKey (appPipeline req fC fR store next).1.headers
          "X-Request-ID" = some (resolveRequestId req.headers fR) ∧
      (appPipeline req fC fR store next).1.status_code = resp.status_code) ∧
    (∀ e store2 logs2,
      next
          (bind_context_vars store
            (some (resolveCorrelationId req.headers fC))
            (some (resolveRequestId req.headers fR)))
          { req with
            state_correlation_id := some (resolveCorrelationId req.headers fC),
            state_request_id := some (resolveRequestId req.headers fR) } =
        (.error e, store2, logs2) →
      (appPipeline req fC fR store next).1.status_code = 500 ∧
      lookupKey (appPipeline req fC fR store next).1.headers
          "X-Correlation-ID" = none ∧
      lookupKey (appPipeline req fC fR store next).1.headers
          "X-Request-ID" = none ∧
      lookupKey (appPipeline req fC fR store next).1.body "correlation_id" =
        some (jOptStr (some (resolveCorrelationId req.headers fC))) ∧
      lookupKey (appPipeline req fC fR store next).1.body "request_id" =
        some (jOptStr (some (resolveRequestId req.headers fR)))) := by
  constructor
  · intro resp store2 logs2 hnext
    have hpipe : (appPipeline req fC fR store next).1 =
        { resp with
          headers := setHeader
            (setHeader resp.headers "X-Correlation-ID"
              (resolveCorrelationId req.headers fC))
            "X-Request-ID" (resolveRequestId req.headers fR) } := by
      simp only [appPipeline]
      rw [correlationDispatch_ok hnext]
    rw [hpipe]
    refine ⟨?_, lookupKey_setHeader_same, rfl⟩
    rw [lookupKey_setHeader_other (by decide), lookupKey_setHeader_same]
  · intro e store2 logs2 hnext
    have hpipe : (appPipeline req fC fR store next).1 =
        (general_exception_handler
          { req with
            state_correlation_id := some (resolveCorrelationId req.headers fC),
            state_request_id := some (resolveRequestId req.headers fR) } e).2 := by
      simp only [appPipeline]
      rw [correlationDispatch_error hnext]
    rw [hpipe]
    exact ⟨rfl, rfl, rfl, rfl, rfl⟩

/-- C6 witness: on the success path the resolved correlation_id is echoed. -/
theorem c6_header_echo_witness :
    lookupKey (appPipeline sampleRequest "c0" "r0" ContextStore.unset
      echoNext).1.headers "X-Correlation-ID" =
      some (resolveCorrelationId sampleRequest.headers "c0") :=
  ((c6_header_echo sampleRequest "c0" "r0" ContextStore.unset echoNext).1
    ⟨200, [], []⟩ _ [] rfl).1

/-! ### C8: the start-of-request record -/

/-- The inner application formed by `RequestLoggingMiddleware` wrapping a
handler with the given outcome: it logs based on the request it receives and
passes the ambient store through unchanged. -/
def loggingNext (t0 t1 : Nat)
    (outcome : Except PyException (Response (List (String × JValue))))
    (s : ContextStore) (q : ModelRequest) :
    Except PyException (Response (List (String × JValue))) × ContextStore ×
      List LogEvent :=
  ((requestLoggingDispatch q t0 t1 outcome).1, s,
   (requestLoggingDispatch q t0 t1 outcome).2)

/-- A request that supplies `X-Request-ID` with an empty value. -/
def emptyRidRequest : ModelRequest :=
  { method := "GET", path := "/", query_params := [], path_params := [],
    headers := [("X-Request-ID", "")], client := none,
    state_correlation_id := none, state_request_id := none }

/-- C8 counterexample: for a request with an empty-valued `X-Request-ID`
header, the start record emitted inside the composed middleware stack
carries `request_id = ""` taken from `request.state`, while the ambient
request_id cell is still unset (the empty string failed
`bind_context_vars`'s truthiness test) — so the record's IDs are not "from
the ambient context" as the claim states. -/
theorem c8_counterexample :
    ((correlationDispatch emptyRidRequest "c0" "r0" ContextStore.unset
        (loggingNext 0 5 (.ok ⟨200, [], []⟩))).logs.head? =
      some (.start (buildStartRecord
        { emptyRidRequest with
          state_correlation_id := some "c0",
          state_request_id := some "" }))) ∧
    (buildStartRecord
      { emptyRidRequest with
        state_correlation_id := some "c0",
        state_request_id := some "" }).request_id = some "" ∧
    (bind_context_vars ContextStore.unset
      (some (resolveCorrelationId emptyRidRequest.headers "c0"))
      (some (resolveRequestId emptyRidRequest.headers "r0"))).request_id =
      none :=
  ⟨rfl, rfl, rfl⟩

/-- C8 (amended): the start-of-request record carries the method, the path,
the parsed query-parameter mapping (or `None` when there are none), the
client `host:port`, the `User-Agent` and `Content-Type` values, presence
booleans — never the values — for `Authorization` and `X-API-Key`, and the
correlation/request IDs read from `request.state`; those state IDs coincide
with the ambient context cells whenever both resolved IDs are non-empty. -/
theorem c8_start_record (req : ModelRequest) (store : ContextStore) :
    (buildStartRecord req).method = req.method ∧
    (buildStartRecord req).path = req.path ∧
    (req.query_params = [] → (buildStartRecord req).query_params = none) ∧
    (¬req.query_params = [] →
      (buildStartRecord req).query_params = some (toDict req.query_params)) ∧
    (∀ h p, req.client = some (h, p) →
      (buildStartRecord req).client = some (h ++ ":" ++ toString p)) ∧
    (buildStartRecord req).user_agent = lookupKey req.headers "User-Agent" ∧
    (buildStartRecord req).content_type =
      lookupKey req.headers "Content-Type" ∧
    (buildStartRecord req).correlation_id = req.state_correlation_id ∧
    (buildStartRecord req).request_id = req.state_request_id ∧
    (buildStartRecord req).headers_info.authorization_present =
      (lookupKey req.headers "Authorization").isSome ∧
    (buildStartRecord req).headers_info.x_api_key_present =
      (lookupKey req.headers "X-API-Key").isSome ∧
    (∀ v v',
      buildStartRecord
          { req with headers := setHeader req.headers "Authorization" v } =
        buildStartRecord
          { req with headers := setHeader req.headers "Authorization" v' }) ∧
    (∀ v v',
      buildStartRecord
          { req with headers := setHeader req.headers "X-API-Key" v } =
        buildStartRecord
          { req with headers := setHeader req.headers "X-API-Key" v' }) ∧
    (∀ cid rid, ¬cid = "" → ¬rid = "" →
      (buildStartRecord { req with
          state_correlation_id := some cid,
          state_request_id := some rid }).correlation_id =
        (bind_context_vars store (some cid) (some rid)).correlation_id ∧
      (buildStartRecord { req with
          state_correlation_id := some cid,
          state_request_id := some rid }).request_id =
        (bind_context_vars store (some cid) (some rid)).request_id) := by
  refine ⟨rfl, rfl, ?_, ?_, ?_, rfl, rfl, rfl, rfl, rfl, rfl, ?_, ?_, ?_⟩
  · intro h
    simp [buildStartRecord, h]
  · intro h
    have h' : req.query_params.isEmpty = false := by
      rcases hq : req.query_params with _ | ⟨p, t⟩
      · exact absurd hq h
      · rfl
    simp [buildStartRecord, h']
  · intro h p hc
    simp [buildStartRecord, hc]
  · intro v v'
    apply buildStartRecord_eq_of_lookups <;>
      first
        | rfl
        | (rw [lookupKey_setHeader_same, lookupKey_setHeader_same]; rfl)
        | rw [lookupKey_setHeader_other (by decide),
            lookupKey_setHeader_other (by decide)]
  · intro v v'
    apply buildStartRecord_eq_of_lookups <;>
      first
        | rfl
        | (rw [lookupKey_setHeader_same, lookupKey_setHeader_same]; rfl)
        | rw [lookupKey_setHeader_other (by decide),
            lookupKey_setHeader_other (by decide)]
  · intro cid rid hc hr
    rw [bind_context_vars_both hc hr]
    exact ⟨rfl, rfl⟩

/-- C8 witness: the sample request has a query parameter and non-empty IDs. -/
theorem c8_start_record_witness :
    (buildStartRecord sampleRequest).query_params =
      some (toDict sampleRequest.query_params) ∧
    (buildStartRecord { sampleRequest with
        state_correlation_id := some "c",
        state_request_id := some "r" }).correlation_id =
      (bind_context_vars ContextStore.unset (some "c")
        (some "r")).correlation_id :=
  ⟨(c8_start_record sampleRequest ContextStore.unset).2.2.2.1 (by decide),
   ((c8_start_record sampleRequest ContextStore.unset).2.2.2.2.2.2.2.2.2.2.2.2.2
      "c" "r" (by decide) (by decide)).1⟩


/-! ### C9: structured-mode formatting -/

/-- C9: in structured mode the serialized record contains the ISO timestamp,
level name, logger name, message and the ambient correlation/request IDs; it
contains an `exception` sub-record (type name, string value, formatted
traceback) exactly when the record carries exception information, and an
`extra` sub-record exactly when additional key/value pairs are present. -/
theorem c9_structured_mode (store : ContextStore) (r : LoguruRecord) :
    lookupKey (serialize_record store r) "timestamp" =
      some (.str r.time_iso) ∧
    lookupKey (serialize_record store r) "level" =
      some (.str r.level_name) ∧
    lookupKey (serialize_record store r) "logger" =
      some (.str r.logger_name) ∧
    lookupKey (serialize_record store r) "message" = some (.str r.message) ∧
    lookupKey (serialize_record store r) "correlation_id" =
      some (jOptStr store.correlation_id) ∧
    lookupKey (serialize_record store r) "request_id" =
      some (jOptStr store.request_id) ∧
    (∀ e, r.exception = some e →
      lookupKey (serialize_record store r) "exception" =
        some (.obj [("type", .str e.type_name),
                    ("value", .str e.value_str),
                    ("traceback", .str e.traceback_str)])) ∧
    (r.exception = none →
      lookupKey (serialize_record store r) "exception" = none) ∧
    (r.extra = [] → lookupKey (serialize_record store r) "extra" = none) ∧
    (¬r.extra = [] →
      lookupKey (serialize_record store r) "extra" = some (.obj r.extra)) := by
  obtain ⟨ti, lv, lg, ms, hexc, hextra⟩ := r
  rcases hexc with _ | e <;> rcases hextra with _ | ⟨p, ext⟩
  · refine ⟨rfl, rfl, rfl, rfl, rfl, rfl, ?_, fun _ => rfl, fun _ => rfl, ?_⟩
    · intro e he
      cases he
    · intro h
      exact absurd rfl h
  · refine ⟨rfl, rfl, rfl, rfl, rfl, rfl, ?_, fun _ => rfl, ?_, fun _ => rfl⟩
    · intro e he
      cases he
    · intro h
      cases h
  · refine ⟨rfl, rfl, rfl, rfl, rfl, rfl, ?_, ?_, fun _ => rfl, ?_⟩
    · intro e' he
      cases he
      rfl
    · intro h
      cases h
    · intro h
      exact absurd rfl h
  · refine ⟨rfl, rfl, rfl, rfl, rfl, rfl, ?_, ?_, ?_, fun _ => rfl⟩
    · intro e' he
      cases he
      rfl
    · intro h
      cases h
    · intro h
      cases h

/-- A sample loguru record with exception information and extra kwargs. -/
def sampleRecord : LoguruRecord :=
  { time_iso := "2026-10-12T00:00:00+00:00",
    level_name := "ERROR",
    logger_name := "src.api",
    message := "Request failed with exception",
    exception := some ⟨"ValueError", "boom", "Traceback: boom"⟩,
    extra := [("status_code", .num 500)] }

/-- C9 witness: on a concrete record carrying an exception and extras, both
sub-records appear with the recorded content. -/
theorem c9_structured_mode_witness :
    lookupKey (serialize_record ⟨some "c", some "r"⟩ sampleRecord)
        "exception" =
      some (.obj [("type", .str "ValueError"),
                  ("value", .str "boom"),
                  ("traceback", .str "Traceback: boom")]) ∧
    lookupKey (serialize_record ⟨some "c", some "r"⟩ sampleRecord) "extra" =
      some (.obj [("status_code", .num 500)]) :=
  ⟨(c9_structured_mode ⟨some "c", some "r"⟩ sampleRecord).2.2.2.2.2.2.1
      ⟨"ValueError", "boom", "Traceback: boom"⟩ rfl,
   (c9_structured_mode ⟨some "c", some "r"⟩ sampleRecord).2.2.2.2.2.2.2.2.2
      (by simp [sampleRecord])⟩

/-! ### C1: context isolation under concurrent interleaving -/

/-- C1: context isolation under concurrency.  Fix any task `i` that handles
one request with non-empty resolved IDs `c`, `r`: it binds them, runs any
handler body of logging and suspension steps, and clears in its `finally`.
Whatever the other tasks run, and however the scheduler interleaves the
steps, every journal entry logged by task `i` is tagged with exactly `c` and
`r` — never the IDs of any other in-flight request. -/
theorem c1_context_isolation (i : Nat) (c r : String)
    (body : List TaskInstr) (s0 s' : Sched)
    (hc : ¬c = "") (hr : ¬r = "")
    (hbody : ∀ ins ∈ body, isBodyInstr ins = true)
    (hprog : s0.progs i = requestProgram c r body)
    (hstore : s0.stores i = ContextStore.unset)
    (hjournal0 : s0.journal = [])
    (hreach : SchedReach s0 s') :
    ∀ e ∈ s'.journal, e.task = i →
      e.correlation_id = some c ∧ e.request_id = some r := by
  have hj0 : JournalOk i c r s0 := by
    intro e he
    rw [hjournal0] at he
    exact absurd he (List.not_mem_nil e)
  exact (schedReach_inv hc hr hbody hreach
    ⟨Or.inl ⟨hprog, hstore⟩, hj0⟩).2

/-- The initial scheduler state of the C1 witness: task 0 handles a request
with IDs `"a"`/`"b"` and one handler log line; task 1 handles a concurrent
request with IDs `"x"`/`"y"` and one log line of its own. -/
def isoInit : Sched :=
  ⟨fun j =>
      if j = 0 then requestProgram "a" "b" [.log "from-0"]
      else if j = 1 then requestProgram "x" "y" [.log "from-1"]
      else [],
   fun _ => ContextStore.unset, []⟩

/-- C1 witness: a concrete three-step run of task 0 (bind, log, clear),
interleaved with nothing else, whose single journal entry carries task 0's
IDs. -/
theorem c1_context_isolation_witness :
    ¬("a" : String) = "" ∧
    ((⟨0, some "a", some "b"⟩ : JournalEntry).correlation_id = some "a" ∧
     (⟨0, some "a", some "b"⟩ : JournalEntry).request_id = some "b") := by
  refine ⟨by decide, ?_⟩
  have htrace := Relation.ReflTransGen.tail
    (Relation.ReflTransGen.tail
      (Relation.ReflTransGen.tail
        (Relation.ReflTransGen.refl)
        (SchedStep.bind isoInit 0 "a" "b" [.log "from-0", .clear] rfl))
      (SchedStep.log _ 0 "from-0" [.clear] rfl))
    (SchedStep.clear _ 0 [] rfl)
  refine c1_context_isolation 0 "a" "b" [.log "from-0"] isoInit _
    (by decide) (by decide) (by decide) rfl rfl rfl htrace
    ⟨0, some "a", some "b"⟩ ?_ rfl
  decide

end FastapiLab
